import Mathlib

/-!
Verification development for the screenshot-capture tool
(a Next.js app: a server route handler POST driving a headless
browser via puppeteer, and a client page component).

Server side (route handler): the handler is embedded as a pure
function from a fault-injection environment Env and an optional
parsed request body to a Response paired with an event trace.
Every awaited browser call in the source is a point where the
environment may inject a failure; a failure jumps to the single
catch block, which returns the one generic failure response.
Events are recorded in the order the corresponding calls are made
in the source.  The Ev.launch event is recorded only when the
browser launch succeeds (a session was actually acquired); every
other event is recorded at the moment its call is made, whether or
not that call then fails.  The call browser.close is modelled as
always succeeding.

Client side (page component): handleScreenshot is embedded as a
function from a client environment (fetch outcome, clock) and the
component state to the new state, the list of toasts shown, and
whether the network call was made.  JSON serialisation of the
history list into local storage is abstracted: the storage slot
holds the parsed list.
-/

-- Artifact bytes (the encoded screenshot or PDF byte stream).
abbrev Bytes := List Nat

-- format: enum png | jpeg | pdf (zod schema field `format`).
inductive Format where
  | png
  | jpeg
  | pdf
deriving DecidableEq, Repr

-- Outcome of page.goto: success, a navigation timeout, or any
-- other navigation error.  Both failures reach the same catch.
inductive GotoOutcome where
  | ok
  | timeout
  | err
deriving DecidableEq, Repr

-- The parsed JSON body, with the fields of screenshotSchema.
-- css is optional (z.string().optional()).
structure RawRequest where
  url : String
  fullSize : Bool
  useProxy : Bool
  noAds : Bool
  width : Int
  height : Int
  zoom : Int
  format : Format
  quality : Int
  delay : Int
  css : Option String
deriving DecidableEq, Repr

-- The page state that the browser has accumulated by the time the
-- artifact is extracted: everything the handler fed to the page
-- before the capture call (viewport, ad blocking, navigation
-- target, injected style, settle delay).  The request fields
-- useProxy, quality, format and fullSize are never fed to the page
-- itself, only (for the last three) to the capture call options.
structure PageState where
  url : String
  width : Int
  height : Int
  zoom : Int
  noAds : Bool
  css : Option String
  delay : Int
deriving DecidableEq, Repr

-- Options of the page.pdf call: format "A4", printBackground true.
structure PdfOpts where
  pageFormat : String
  printBackground : Bool
deriving DecidableEq, Repr

-- Options of the page.screenshot call: fullPage, type, quality.
-- shotType mirrors the source key named type.
structure ShotOpts where
  fullPage : Bool
  shotType : Format
  quality : Option Int
deriving DecidableEq, Repr

-- Decision of the request-interception handler: request.abort or
-- request.continue.
inductive InterceptAction where
  | abort
  | cont
deriving DecidableEq, Repr

-- Trace events, one per browser call site in the source, in the
-- order the calls are made.
inductive Ev where
  | launch
  | newPage
  | setViewport (width height zoomPct : Int)
  | setInterception
  | onRequest
  | navigate (url : String)
  | injectCss (css : String)
  | wait (ms : Int)
  | pdfCall (pageFormat : String) (printBackground : Bool)
  | shot (fullPage : Bool) (shotType : Format) (quality : Option Int)
  | close
deriving DecidableEq, Repr

-- The JSON response of the handler: a success payload (MIME type
-- and artifact bytes, which the source wraps as a data URI) or a
-- failure payload (error message and HTTP status).
inductive Response where
  | ok (mime : String) (bytes : Bytes)
  | fail (error : String) (status : Nat)
deriving DecidableEq, Repr

-- Fault-injection environment: one flag or oracle per awaited
-- browser call.  urlOk stands for the z.string().url() check.
structure Env where
  urlOk : String → Bool
  launchOk : Bool
  newPageOk : Bool
  setViewportOk : Bool
  setInterceptionOk : Bool
  gotoOutcome : GotoOutcome
  evaluateOk : Bool
  waitOk : Bool
  pdfBytes : PageState → PdfOpts → Option Bytes
  shotBytes : PageState → ShotOpts → Option Bytes

def formatStr : Format → String
  | .png => "png"
  | .jpeg => "jpeg"
  | .pdf => "pdf"

-- Source: validated.format === "pdf" ? "application/pdf" : `image/` + format.
def mimeOf (f : Format) : String :=
  if f = Format.pdf then "application/pdf" else "image/" ++ formatStr f

-- The single failure response of the catch block:
-- { success: false, error: "Failed to capture screenshot" }, status 500.
def genericFailure : Response :=
  Response.fail "Failed to capture screenshot" 500

-- screenshotSchema.parse: url must be a valid URL and every
-- numeric field must be inside its min/max bounds.
def validate (env : Env) (r : RawRequest) : Bool :=
  env.urlOk r.url &&
  decide (100 ≤ r.width) && decide (r.width ≤ 3840) &&
  decide (100 ≤ r.height) && decide (r.height ≤ 2160) &&
  decide (10 ≤ r.zoom) && decide (r.zoom ≤ 200) &&
  decide (0 ≤ r.quality) && decide (r.quality ≤ 100) &&
  decide (0 ≤ r.delay) && decide (r.delay ≤ 10000)

-- The callback registered with page.on("request", ...): abort
-- requests whose resourceType is "advertisement" or "media",
-- continue all others.
def onRequestHandler (resourceType : String) : InterceptAction :=
  if resourceType = "advertisement" || resourceType = "media" then
    InterceptAction.abort
  else
    InterceptAction.cont

def pageStateOf (r : RawRequest) : PageState :=
  ⟨r.url, r.width, r.height, r.zoom, r.noAds, r.css, r.delay⟩

-- Step 7 and after: take the screenshot or render the PDF, close
-- the browser, and build the success response.
def capAndRespond (env : Env) (r : RawRequest) (t : List Ev) : Response × List Ev :=
  if r.format = Format.pdf then
    let t1 := t ++ [Ev.pdfCall "A4" true]
    match env.pdfBytes (pageStateOf r) ⟨"A4", true⟩ with
    | some bs => (Response.ok (mimeOf r.format) bs, t1 ++ [Ev.close])
    | none => (genericFailure, t1)
  else
    let opts : ShotOpts :=
      ⟨r.fullSize, r.format, if r.format = Format.jpeg then some r.quality else none⟩
    let t1 := t ++ [Ev.shot opts.fullPage opts.shotType opts.quality]
    match env.shotBytes (pageStateOf r) opts with
    | some bs => (Response.ok (mimeOf r.format) bs, t1 ++ [Ev.close])
    | none => (genericFailure, t1)

-- Step 6: if (validated.delay > 0) await page.waitForTimeout(delay).
def delayStage (env : Env) (r : RawRequest) (t : List Ev) : Response × List Ev :=
  if r.delay > 0 then
    let t1 := t ++ [Ev.wait r.delay]
    if env.waitOk then capAndRespond env r t1 else (genericFailure, t1)
  else
    capAndRespond env r t

-- Step 5: if (validated.css) await page.evaluate(...).  The check
-- is a JS truthiness test, so an empty string also skips it.
def cssStage (env : Env) (r : RawRequest) (t : List Ev) : Response × List Ev :=
  match r.css with
  | none => delayStage env r t
  | some s =>
      if s = "" then delayStage env r t
      else
        let t1 := t ++ [Ev.injectCss s]
        if env.evaluateOk then delayStage env r t1 else (genericFailure, t1)

-- Step 4: await page.goto(url, { waitUntil: "networkidle0" }).
def gotoStage (env : Env) (r : RawRequest) (t : List Ev) : Response × List Ev :=
  let t1 := t ++ [Ev.navigate r.url]
  match env.gotoOutcome with
  | .ok => cssStage env r t1
  | .timeout => (genericFailure, t1)
  | .err => (genericFailure, t1)

-- Step 3: if (validated.noAds) { await page.setRequestInterception(true);
-- page.on("request", onRequestHandler) }.
def interceptStage (env : Env) (r : RawRequest) (t : List Ev) : Response × List Ev :=
  if r.noAds then
    let t1 := t ++ [Ev.setInterception]
    if env.setInterceptionOk then gotoStage env r (t1 ++ [Ev.onRequest])
    else (genericFailure, t1)
  else
    gotoStage env r t

-- Step 2: await page.setViewport({ width, height, deviceScaleFactor:
-- zoom / 100 }).  The scale factor is recorded by its percent value.
def viewportStage (env : Env) (r : RawRequest) (t : List Ev) : Response × List Ev :=
  let t1 := t ++ [Ev.setViewport r.width r.height r.zoom]
  if env.setViewportOk then interceptStage env r t1 else (genericFailure, t1)

-- await browser.newPage().
def newPageStage (env : Env) (r : RawRequest) (t : List Ev) : Response × List Ev :=
  let t1 := t ++ [Ev.newPage]
  if env.newPageOk then viewportStage env r t1 else (genericFailure, t1)

-- The route handler POST: parse the body, validate it, launch the
-- browser, run the pipeline.  Any failure lands in the catch block
-- and yields genericFailure.
def POST (env : Env) (body : Option RawRequest) : Response × List Ev :=
  match body with
  | none => (genericFailure, [])
  | some r =>
      if validate env r then
        if env.launchOk then newPageStage env r [Ev.launch]
        else (genericFailure, [])
      else (genericFailure, [])

/-!  Client-side page component.  -/

-- HistoryItem of the page component.
structure HistoryItem where
  id : String
  url : String
  timestamp : Int
  screenshot : String
deriving DecidableEq, Repr

-- Source: const updatedHistory = [newHistoryItem, ...history.slice(0, 9)].
def updateHistory (item : HistoryItem) (history : List HistoryItem) : List HistoryItem :=
  item :: history.take 9

-- ScreenshotOptions of the page component (css is a plain string
-- there, defaulting to the empty string).
structure ScreenshotOptions where
  url : String
  fullSize : Bool
  useProxy : Bool
  noAds : Bool
  width : Int
  height : Int
  zoom : Int
  format : Format
  quality : Int
  delay : Int
  css : String
deriving DecidableEq, Repr

inductive Toast where
  | error (msg : String)
  | success (msg : String)
deriving DecidableEq, Repr

-- The parsed body of the fetch response.
inductive ApiResponse where
  | ok (screenshot : String)
  | err (msg : String)
deriving DecidableEq, Repr

-- Component state touched by handleScreenshot.  storage is the
-- local-storage slot screenshotHistory, holding the parsed list.
structure ComposerState where
  isLoading : Bool
  screenshot : Option String
  history : List HistoryItem
  storage : Option (List HistoryItem)
deriving DecidableEq, Repr

-- Client environment: outcome of the fetch (none models a thrown
-- network or JSON error) and the current clock for Date.now().
structure ClientEnv where
  fetchResult : Option ApiResponse
  now : Int

-- handleScreenshot: returns the new state, the toasts shown, and
-- whether fetch was called.  The finally block always clears
-- isLoading.
def handleScreenshot (env : ClientEnv) (options : ScreenshotOptions)
    (st : ComposerState) : ComposerState × List Toast × Bool :=
  if options.url = "" then
    ({ st with isLoading := false }, [Toast.error "Please enter a URL"], false)
  else
    match env.fetchResult with
    | none =>
        ({ st with isLoading := false }, [Toast.error "Failed to capture screenshot"], true)
    | some (ApiResponse.err _) =>
        ({ st with isLoading := false }, [Toast.error "Failed to capture screenshot"], true)
    | some (ApiResponse.ok shot) =>
        let item : HistoryItem := ⟨toString env.now, options.url, env.now, shot⟩
        let updated := updateHistory item st.history
        ({ st with
            isLoading := false,
            screenshot := some shot,
            history := updated,
            storage := some updated },
         [Toast.success "Screenshot captured successfully!"], true)

-- The mount effect: read screenshotHistory from local storage and,
-- if present, adopt the parsed list as-is (no truncation).
def loadHistory (saved : Option (List HistoryItem)) (st : ComposerState) : ComposerState :=
  match saved with
  | none => st
  | some l => { st with history := l }

/-!  Concrete fixtures used by witnesses and counterexamples.  -/

def reqStd : RawRequest :=
  ⟨"https://example.com", false, false, false, 1280, 720, 100, Format.png, 80, 0, none⟩

def envAllOk : Env where
  urlOk := fun _ => true
  launchOk := true
  newPageOk := true
  setViewportOk := true
  setInterceptionOk := true
  gotoOutcome := GotoOutcome.ok
  evaluateOk := true
  waitOk := true
  pdfBytes := fun _ _ => some [1, 2, 3]
  shotBytes := fun _ _ => some [4, 5, 6]

def envGotoErr : Env := { envAllOk with gotoOutcome := GotoOutcome.err }

def envGotoTimeout : Env := { envAllOk with gotoOutcome := GotoOutcome.timeout }

def st0 : ComposerState := ⟨false, none, [], none⟩

def optsStd : ScreenshotOptions :=
  ⟨"https://example.com", false, false, false, 1280, 720, 100, Format.png, 80, 0, ""⟩

def itemA : HistoryItem := ⟨"1", "https://a.com", 1, "shotA"⟩

def histN (n : Nat) : List HistoryItem :=
  (List.range n).map (fun i => ⟨toString i, "https://a.com", (i : Int), "shot"⟩)

/-!  Claim theorems.  -/

/-- C1: the claim states that for every capture request that passes
validation, the acquired browser session is closed on every
execution path, success or failure.  The code calls browser.close
only after a successful capture; the catch block does not close the
browser.  At the failing input below (a valid standard request whose
navigation fails), the trace records that the session was acquired
(Ev.launch) and never records Ev.close, so the session leaks. -/
theorem C1_session_not_closed_on_failure :
    POST envGotoErr (some reqStd) =
      (genericFailure, [Ev.launch, Ev.newPage, Ev.setViewport 1280 720 100,
        Ev.navigate "https://example.com"]) ∧
    Ev.launch ∈ (POST envGotoErr (some reqStd)).2 ∧
    Ev.close ∉ (POST envGotoErr (some reqStd)).2 := by
  decide

/-- C2 counterexample: the claim states that an out-of-range request
yields a failure of kind validation-error.  The code has no failure
kinds at all: the response for an out-of-range width (50) is the
very same generic failure value returned for a navigation error on
a valid request, so no validation-error kind is observable. -/
theorem C2_no_validation_kind :
    POST envAllOk (some { reqStd with width := 50 }) = (genericFailure, []) ∧
    (POST envAllOk (some { reqStd with width := 50 })).1
      = (POST envGotoErr (some reqStd)).1 := by
  decide

/-- C2 (amended): for every request in which width, height, zoom or
quality is outside its allowed range, the handler returns the single
generic structured failure and no browser session is ever acquired:
the event trace is empty, so no browser resource is touched. -/
theorem C2_failfast (env : Env) (r : RawRequest)
    (h : r.width < 100 ∨ 3840 < r.width ∨ r.height < 100 ∨ 2160 < r.height ∨
         r.zoom < 10 ∨ 200 < r.zoom ∨ r.quality < 0 ∨ 100 < r.quality) :
    POST env (some r) = (genericFailure, []) := by
  have hv : validate env r = false := by
    cases hb : validate env r
    · rfl
    · exfalso
      unfold validate at hb
      simp only [Bool.and_eq_true, decide_eq_true_eq] at hb
      omega
  simp [POST, hv]

/-- C2 witness: the amended theorem applied at a concrete request
with width 50. -/
theorem C2_failfast_witness :
    ({ reqStd with width := 50 } : RawRequest).width < 100 ∧
    POST envAllOk (some { reqStd with width := 50 }) = (genericFailure, []) :=
  ⟨by decide, C2_failfast envAllOk { reqStd with width := 50 } (Or.inl (by decide))⟩

/-- C7: the history append of the composer never produces more than
10 entries, places the new entry at the front (most recent first),
and, when the history already holds 10 entries, drops exactly the
last entry (the oldest). -/
theorem C7_history_cap (item : HistoryItem) (h : List HistoryItem) :
    (updateHistory item h).length ≤ 10 ∧
    (updateHistory item h).head? = some item ∧
    (h.length = 10 → updateHistory item h = item :: h.dropLast) := by
  refine ⟨?_, rfl, ?_⟩
  · simp only [updateHistory, List.length_cons, List.length_take]
    omega
  · intro hlen
    unfold updateHistory
    rw [List.dropLast_eq_take, hlen]

/-- C7 witness: appending to a concrete history of 10 entries. -/
theorem C7_history_cap_witness :
    (histN 10).length = 10 ∧
    updateHistory itemA (histN 10) = itemA :: (histN 10).dropLast :=
  ⟨by decide, (C7_history_cap itemA (histN 10)).2.2 (by decide)⟩

/-- C8: the useProxy option is accepted and validated but never read
by the handler after parsing: the response and the whole event trace
are identical whatever its value. -/
theorem C8_useProxy_inert (env : Env) (r : RawRequest) (b : Bool) :
    POST env (some { r with useProxy := b }) = POST env (some r) := rfl

/-- C9: when the URL field is the empty string, handleScreenshot
shows the enter-a-URL error toast and returns without calling fetch
(the Boolean component is false) and without touching the preview,
the history or the storage slot: the only state change is clearing
the isLoading flag in the finally block. -/
theorem C9_empty_url (env : ClientEnv) (options : ScreenshotOptions)
    (st : ComposerState) (h : options.url = "") :
    handleScreenshot env options st =
      ({ st with isLoading := false }, [Toast.error "Please enter a URL"], false) := by
  unfold handleScreenshot
  rw [if_pos h]

/-- C9 witness: handleScreenshot at a concrete state with an empty
URL. -/
theorem C9_empty_url_witness :
    ({ optsStd with url := "" } : ScreenshotOptions).url = "" ∧
    handleScreenshot ⟨some (ApiResponse.ok "shot"), 5⟩ { optsStd with url := "" } st0 =
      ({ st0 with isLoading := false }, [Toast.error "Please enter a URL"], false) :=
  ⟨rfl, C9_empty_url ⟨some (ApiResponse.ok "shot"), 5⟩ { optsStd with url := "" } st0 rfl⟩

/-- C10: the mount effect adopts a stored history list as-is, so a
stored list longer than 10 entries is displayed without truncation;
the 10-entry cap is enforced only by the append performed after a
successful capture. -/
theorem C10_load_uncapped :
    (∀ st (l : List HistoryItem), (loadHistory (some l) st).history = l) ∧
    (∀ st (l : List HistoryItem), 10 < l.length →
      10 < (loadHistory (some l) st).history.length) ∧
    (∀ item h, (updateHistory item h).length ≤ 10) := by
  refine ⟨fun st l => rfl, fun st l hl => ?_, fun item h => ?_⟩
  · simpa [loadHistory] using hl
  · simp only [updateHistory, List.length_cons, List.length_take]
    omega

/-- C10 witness: a stored list of 11 entries is adopted with all 11
entries. -/
theorem C10_load_uncapped_witness :
    10 < (histN 11).length ∧ 10 < (loadHistory (some (histN 11)) st0).history.length :=
  ⟨by decide, C10_load_uncapped.2.1 st0 (histN 11) (by decide)⟩

/-!  Helper lemmas about the pipeline stages.  -/

-- Each stage only appends to the trace it is given.
theorem capAndRespond_trace (env : Env) (r : RawRequest) (t : List Ev) :
    ∃ s, (capAndRespond env r t).2 = t ++ s := by
  obtain ⟨url, fs, up, na, w, h, z, fmt, qual, d, css⟩ := r
  cases fmt with
  | pdf =>
      cases hb : env.pdfBytes ⟨url, w, h, z, na, css, d⟩ ⟨"A4", true⟩ with
      | none => exact ⟨[Ev.pdfCall "A4" true], by simp [capAndRespond, pageStateOf, hb]⟩
      | some bs =>
          exact ⟨[Ev.pdfCall "A4" true, Ev.close], by simp [capAndRespond, pageStateOf, hb]⟩
  | png =>
      cases hb : env.shotBytes ⟨url, w, h, z, na, css, d⟩ ⟨fs, Format.png, none⟩ with
      | none => exact ⟨[Ev.shot fs Format.png none], by simp [capAndRespond, pageStateOf, hb]⟩
      | some bs =>
          exact ⟨[Ev.shot fs Format.png none, Ev.close],
            by simp [capAndRespond, pageStateOf, hb]⟩
  | jpeg =>
      cases hb : env.shotBytes ⟨url, w, h, z, na, css, d⟩ ⟨fs, Format.jpeg, some qual⟩ with
      | none =>
          exact ⟨[Ev.shot fs Format.jpeg (some qual)],
            by simp [capAndRespond, pageStateOf, hb]⟩
      | some bs =>
          exact ⟨[Ev.shot fs Format.jpeg (some qual), Ev.close],
            by simp [capAndRespond, pageStateOf, hb]⟩

theorem delayStage_trace (env : Env) (r : RawRequest) (t : List Ev) :
    ∃ s, (delayStage env r t).2 = t ++ s := by
  by_cases hd : r.delay > 0
  · cases hw : env.waitOk with
    | false => exact ⟨[Ev.wait r.delay], by simp [delayStage, hd, hw]⟩
    | true =>
        obtain ⟨s, hs⟩ := capAndRespond_trace env r (t ++ [Ev.wait r.delay])
        exact ⟨[Ev.wait r.delay] ++ s, by simp [delayStage, hd, hw, hs]⟩
  · simpa [delayStage, hd] using capAndRespond_trace env r t

theorem cssStage_trace (env : Env) (r : RawRequest) (t : List Ev) :
    ∃ s, (cssStage env r t).2 = t ++ s := by
  cases hcss : r.css with
  | none => simpa [cssStage, hcss] using delayStage_trace env r t
  | some s =>
      by_cases hs : s = ""
      · simpa [cssStage, hcss, hs] using delayStage_trace env r t
      · cases hev : env.evaluateOk with
        | false => exact ⟨[Ev.injectCss s], by simp [cssStage, hcss, hs, hev]⟩
        | true =>
            obtain ⟨u, hu⟩ := delayStage_trace env r (t ++ [Ev.injectCss s])
            exact ⟨[Ev.injectCss s] ++ u, by simp [cssStage, hcss, hs, hev, hu]⟩

-- The first component of every stage is either the one generic
-- failure or a success tagged with the MIME type of the request
-- format.
theorem capAndRespond_fst (env : Env) (r : RawRequest) (t : List Ev) :
    (capAndRespond env r t).1 = genericFailure ∨
    ∃ bs, (capAndRespond env r t).1 = Response.ok (mimeOf r.format) bs := by
  obtain ⟨url, fs, up, na, w, h, z, fmt, qual, d, css⟩ := r
  cases fmt with
  | pdf =>
      cases hb : env.pdfBytes ⟨url, w, h, z, na, css, d⟩ ⟨"A4", true⟩ with
      | none => exact Or.inl (by simp [capAndRespond, pageStateOf, hb])
      | some bs => exact Or.inr ⟨bs, by simp [capAndRespond, pageStateOf, hb]⟩
  | png =>
      cases hb : env.shotBytes ⟨url, w, h, z, na, css, d⟩ ⟨fs, Format.png, none⟩ with
      | none => exact Or.inl (by simp [capAndRespond, pageStateOf, hb])
      | some bs => exact Or.inr ⟨bs, by simp [capAndRespond, pageStateOf, hb]⟩
  | jpeg =>
      cases hb : env.shotBytes ⟨url, w, h, z, na, css, d⟩ ⟨fs, Format.jpeg, some qual⟩ with
      | none => exact Or.inl (by simp [capAndRespond, pageStateOf, hb])
      | some bs => exact Or.inr ⟨bs, by simp [capAndRespond, pageStateOf, hb]⟩

theorem delayStage_fst (env : Env) (r : RawRequest) (t : List Ev) :
    (delayStage env r t).1 = genericFailure ∨
    ∃ bs, (delayStage env r t).1 = Response.ok (mimeOf r.format) bs := by
  by_cases hd : r.delay > 0
  · cases hw : env.waitOk with
    | false => exact Or.inl (by simp [delayStage, hd, hw])
    | true => simpa [delayStage, hd, hw] using capAndRespond_fst env r (t ++ [Ev.wait r.delay])
  · simpa [delayStage, hd] using capAndRespond_fst env r t

theorem cssStage_fst (env : Env) (r : RawRequest) (t : List Ev) :
    (cssStage env r t).1 = genericFailure ∨
    ∃ bs, (cssStage env r t).1 = Response.ok (mimeOf r.format) bs := by
  cases hcss : r.css with
  | none => simpa [cssStage, hcss] using delayStage_fst env r t
  | some s =>
      by_cases hs : s = ""
      · simpa [cssStage, hcss, hs] using delayStage_fst env r t
      · cases hev : env.evaluateOk with
        | false => exact Or.inl (by simp [cssStage, hcss, hs, hev])
        | true =>
            simpa [cssStage, hcss, hs, hev] using
              delayStage_fst env r (t ++ [Ev.injectCss s])

theorem gotoStage_fst (env : Env) (r : RawRequest) (t : List Ev) :
    (gotoStage env r t).1 = genericFailure ∨
    ∃ bs, (gotoStage env r t).1 = Response.ok (mimeOf r.format) bs := by
  cases hg : env.gotoOutcome with
  | ok => simpa [gotoStage, hg] using cssStage_fst env r (t ++ [Ev.navigate r.url])
  | timeout => exact Or.inl (by simp [gotoStage, hg])
  | err => exact Or.inl (by simp [gotoStage, hg])

theorem interceptStage_fst (env : Env) (r : RawRequest) (t : List Ev) :
    (interceptStage env r t).1 = genericFailure ∨
    ∃ bs, (interceptStage env r t).1 = Response.ok (mimeOf r.format) bs := by
  cases ha : r.noAds with
  | false => simpa [interceptStage, ha] using gotoStage_fst env r t
  | true =>
      cases hi : env.setInterceptionOk with
      | false => exact Or.inl (by simp [interceptStage, ha, hi])
      | true =>
          simpa [interceptStage, ha, hi] using
            gotoStage_fst env r (t ++ [Ev.setInterception] ++ [Ev.onRequest])

theorem viewportStage_fst (env : Env) (r : RawRequest) (t : List Ev) :
    (viewportStage env r t).1 = genericFailure ∨
    ∃ bs, (viewportStage env r t).1 = Response.ok (mimeOf r.format) bs := by
  cases hv : env.setViewportOk with
  | false => exact Or.inl (by simp [viewportStage, hv])
  | true =>
      simpa [viewportStage, hv] using
        interceptStage_fst env r (t ++ [Ev.setViewport r.width r.height r.zoom])

theorem newPageStage_fst (env : Env) (r : RawRequest) (t : List Ev) :
    (newPageStage env r t).1 = genericFailure ∨
    ∃ bs, (newPageStage env r t).1 = Response.ok (mimeOf r.format) bs := by
  cases hn : env.newPageOk with
  | false => exact Or.inl (by simp [newPageStage, hn])
  | true => simpa [newPageStage, hn] using viewportStage_fst env r (t ++ [Ev.newPage])

theorem POST_fst (env : Env) (r : RawRequest) :
    (POST env (some r)).1 = genericFailure ∨
    ∃ bs, (POST env (some r)).1 = Response.ok (mimeOf r.format) bs := by
  cases hv : validate env r with
  | false => exact Or.inl (by simp [POST, hv])
  | true =>
      cases hl : env.launchOk with
      | false => exact Or.inl (by simp [POST, hv, hl])
      | true => simpa [POST, hv, hl] using newPageStage_fst env r [Ev.launch]

/-- C4 counterexample: the claim states that a navigation timeout is
surfaced as a kind distinct from generic navigation errors.  At the
standard request, the response for a navigation timeout is the very
same value as the response for a generic navigation error, and both
are the one generic failure: no kind distinguishes them. -/
theorem C4_timeout_indistinct :
    (POST envGotoTimeout (some reqStd)).1 = (POST envGotoErr (some reqStd)).1 ∧
    (POST envGotoTimeout (some reqStd)).1 = genericFailure := by
  decide

/-- C4 (amended): every failure of the handler is caught at the
boundary and converted to the single structured failure response
(message Failed to capture screenshot, status 500): no raw
unstructured error reaches the caller, but there is no taxonomy of
failure kinds, and in particular navigation timeouts are not
distinguishable from generic navigation errors. -/
theorem C4_all_failures_structured (env : Env) (body : Option RawRequest) :
    (∃ m bs, (POST env body).1 = Response.ok m bs) ∨
    (POST env body).1 = genericFailure := by
  cases body with
  | none => exact Or.inr rfl
  | some r =>
      rcases POST_fst env r with h | ⟨bs, h⟩
      · exact Or.inr h
      · exact Or.inl ⟨mimeOf r.format, bs, h⟩

-- Any pdfCall event in a stage trace either was already in the
-- incoming trace or records the fixed options A4 with background.
theorem capAndRespond_pdfCall (env : Env) (r : RawRequest) (t : List Ev)
    (f : String) (pb : Bool)
    (hm : Ev.pdfCall f pb ∈ (capAndRespond env r t).2) :
    Ev.pdfCall f pb ∈ t ∨ (f = "A4" ∧ pb = true) := by
  obtain ⟨url, fs, up, na, w, h, z, fmt, qual, d, css⟩ := r
  cases fmt with
  | pdf =>
      cases hb : env.pdfBytes ⟨url, w, h, z, na, css, d⟩ ⟨"A4", true⟩ with
      | none => simp [capAndRespond, pageStateOf, hb, List.mem_append] at hm; tauto
      | some bs => simp [capAndRespond, pageStateOf, hb, List.mem_append] at hm; tauto
  | png =>
      cases hb : env.shotBytes ⟨url, w, h, z, na, css, d⟩ ⟨fs, Format.png, none⟩ with
      | none =>
          simp [capAndRespond, pageStateOf, hb, List.mem_append] at hm
          exact Or.inl hm
      | some bs =>
          simp [capAndRespond, pageStateOf, hb, List.mem_append] at hm
          exact Or.inl hm
  | jpeg =>
      cases hb : env.shotBytes ⟨url, w, h, z, na, css, d⟩ ⟨fs, Format.jpeg, some qual⟩ with
      | none =>
          simp [capAndRespond, pageStateOf, hb, List.mem_append] at hm
          exact Or.inl hm
      | some bs =>
          simp [capAndRespond, pageStateOf, hb, List.mem_append] at hm
          exact Or.inl hm

theorem delayStage_pdfCall (env : Env) (r : RawRequest) (t : List Ev)
    (f : String) (pb : Bool)
    (hm : Ev.pdfCall f pb ∈ (delayStage env r t).2) :
    Ev.pdfCall f pb ∈ t ∨ (f = "A4" ∧ pb = true) := by
  by_cases hd : r.delay > 0
  · cases hw : env.waitOk with
    | false =>
        simp [delayStage, hd, hw, List.mem_append] at hm
        exact Or.inl hm
    | true =>
        rcases capAndRespond_pdfCall env r (t ++ [Ev.wait r.delay]) f pb
            (by simpa [delayStage, hd, hw] using hm) with h | h
        · simp [List.mem_append] at h
          exact Or.inl h
        · exact Or.inr h
  · exact capAndRespond_pdfCall env r t f pb (by simpa [delayStage, hd] using hm)

theorem cssStage_pdfCall (env : Env) (r : RawRequest) (t : List Ev)
    (f : String) (pb : Bool)
    (hm : Ev.pdfCall f pb ∈ (cssStage env r t).2) :
    Ev.pdfCall f pb ∈ t ∨ (f = "A4" ∧ pb = true) := by
  cases hcss : r.css with
  | none => exact delayStage_pdfCall env r t f pb (by simpa [cssStage, hcss] using hm)
  | some s =>
      by_cases hs : s = ""
      · exact delayStage_pdfCall env r t f pb (by simpa [cssStage, hcss, hs] using hm)
      · cases hev : env.evaluateOk with
        | false =>
            simp [cssStage, hcss, hs, hev, List.mem_append] at hm
            exact Or.inl hm
        | true =>
            rcases delayStage_pdfCall env r (t ++ [Ev.injectCss s]) f pb
                (by simpa [cssStage, hcss, hs, hev] using hm) with h | h
            · simp [List.mem_append] at h
              exact Or.inl h
            · exact Or.inr h

theorem gotoStage_pdfCall (env : Env) (r : RawRequest) (t : List Ev)
    (f : String) (pb : Bool)
    (hm : Ev.pdfCall f pb ∈ (gotoStage env r t).2) :
    Ev.pdfCall f pb ∈ t ∨ (f = "A4" ∧ pb = true) := by
  cases hg : env.gotoOutcome with
  | ok =>
      rcases cssStage_pdfCall env r (t ++ [Ev.navigate r.url]) f pb
          (by simpa [gotoStage, hg] using hm) with h | h
      · simp [List.mem_append] at h
        exact Or.inl h
      · exact Or.inr h
  | timeout =>
      simp [gotoStage, hg, List.mem_append] at hm
      exact Or.inl hm
  | err =>
      simp [gotoStage, hg, List.mem_append] at hm
      exact Or.inl hm

theorem interceptStage_pdfCall (env : Env) (r : RawRequest) (t : List Ev)
    (f : String) (pb : Bool)
    (hm : Ev.pdfCall f pb ∈ (interceptStage env r t).2) :
    Ev.pdfCall f pb ∈ t ∨ (f = "A4" ∧ pb = true) := by
  cases ha : r.noAds with
  | false => exact gotoStage_pdfCall env r t f pb (by simpa [interceptStage, ha] using hm)
  | true =>
      cases hi : env.setInterceptionOk with
      | false =>
          simp [interceptStage, ha, hi, List.mem_append] at hm
          exact Or.inl hm
      | true =>
          rcases gotoStage_pdfCall env r (t ++ [Ev.setInterception] ++ [Ev.onRequest]) f pb
              (by simpa [interceptStage, ha, hi] using hm) with h | h
          · simp [List.mem_append] at h
            exact Or.inl h
          · exact Or.inr h

theorem viewportStage_pdfCall (env : Env) (r : RawRequest) (t : List Ev)
    (f : String) (pb : Bool)
    (hm : Ev.pdfCall f pb ∈ (viewportStage env r t).2) :
    Ev.pdfCall f pb ∈ t ∨ (f = "A4" ∧ pb = true) := by
  cases hv : env.setViewportOk with
  | false =>
      simp [viewportStage, hv, List.mem_append] at hm
      exact Or.inl hm
  | true =>
      rcases interceptStage_pdfCall env r (t ++ [Ev.setViewport r.width r.height r.zoom]) f pb
          (by simpa [viewportStage, hv] using hm) with h | h
      · simp [List.mem_append] at h
        exact Or.inl h
      · exact Or.inr h

theorem newPageStage_pdfCall (env : Env) (r : RawRequest) (t : List Ev)
    (f : String) (pb : Bool)
    (hm : Ev.pdfCall f pb ∈ (newPageStage env r t).2) :
    Ev.pdfCall f pb ∈ t ∨ (f = "A4" ∧ pb = true) := by
  cases hn : env.newPageOk with
  | false =>
      simp [newPageStage, hn, List.mem_append] at hm
      exact Or.inl hm
  | true =>
      rcases viewportStage_pdfCall env r (t ++ [Ev.newPage]) f pb
          (by simpa [newPageStage, hn] using hm) with h | h
      · simp [List.mem_append] at h
        exact Or.inl h
      · exact Or.inr h

theorem POST_pdfCall (env : Env) (r : RawRequest) (f : String) (pb : Bool)
    (hm : Ev.pdfCall f pb ∈ (POST env (some r)).2) :
    f = "A4" ∧ pb = true := by
  cases hv : validate env r with
  | false => simp [POST, hv] at hm
  | true =>
      cases hl : env.launchOk with
      | false => simp [POST, hv, hl] at hm
      | true =>
          rcases newPageStage_pdfCall env r [Ev.launch] f pb
              (by simpa [POST, hv, hl] using hm) with h | h
          · simp at h
          · exact h

/-- C6: for a request with format pdf, the artifact is produced by
the PDF renderer with the fixed standard page format A4 and
printBackground set, whatever the request viewport is (the recorded
PDF options never mention width or height and are the constant pair
A4, true), and a successful response is tagged with the MIME type
application/pdf. -/
theorem C6_pdf_fixed_page (env : Env) (r : RawRequest) (hf : r.format = Format.pdf) :
    (∀ f pb, Ev.pdfCall f pb ∈ (POST env (some r)).2 → f = "A4" ∧ pb = true) ∧
    (∀ m bs, (POST env (some r)).1 = Response.ok m bs → m = "application/pdf") := by
  constructor
  · intro f pb hm
    exact POST_pdfCall env r f pb hm
  · intro m bs hok
    rcases POST_fst env r with h | ⟨bs2, h⟩
    · rw [hok] at h
      simp [genericFailure] at h
    · rw [hok] at h
      have hmime : m = mimeOf r.format := by
        injection h
      rw [hmime, hf]
      simp [mimeOf]

/-- C6 witness: the theorem applied at a concrete pdf request whose
capture succeeds: the recorded pdfCall event has options A4, true,
and the success MIME type is application/pdf. -/
theorem C6_pdf_fixed_page_witness :
    ({ reqStd with format := Format.pdf } : RawRequest).format = Format.pdf ∧
    Ev.pdfCall "A4" true ∈ (POST envAllOk (some { reqStd with format := Format.pdf })).2 ∧
    (POST envAllOk (some { reqStd with format := Format.pdf })).1
      = Response.ok "application/pdf" [1, 2, 3] ∧
    "application/pdf" = "application/pdf" :=
  ⟨rfl, by decide, by decide,
    (C6_pdf_fixed_page envAllOk { reqStd with format := Format.pdf } rfl).2
      "application/pdf" [1, 2, 3] (by decide)⟩

/-- C3: for a request with noAds set, whenever navigation occurs at
all, the request-interception policy was fully installed strictly
before it (both the interception switch and the handler registration
events precede the navigate event in the trace); the installed
handler aborts exactly the sub-resource requests whose resource type
is classified advertisement or media, and lets every other request
continue unmodified. -/
theorem C3_adblock_installed_before_nav (env : Env) (r : RawRequest)
    (hAds : r.noAds = true)
    (hnav : Ev.navigate r.url ∈ (POST env (some r)).2) :
    (∃ t1 t2, (POST env (some r)).2 = t1 ++ Ev.navigate r.url :: t2 ∧
       Ev.setInterception ∈ t1 ∧ Ev.onRequest ∈ t1) ∧
    (∀ rt, onRequestHandler rt = InterceptAction.abort ↔
       (rt = "advertisement" ∨ rt = "media")) ∧
    (∀ rt, rt ≠ "advertisement" → rt ≠ "media" →
       onRequestHandler rt = InterceptAction.cont) := by
  refine ⟨?_, ?_, ?_⟩
  · cases hv : validate env r with
    | false => simp [POST, hv] at hnav
    | true =>
      cases hl : env.launchOk with
      | false => simp [POST, hv, hl] at hnav
      | true =>
        cases hn : env.newPageOk with
        | false => simp [POST, hv, hl, newPageStage, hn] at hnav
        | true =>
          cases hvp : env.setViewportOk with
          | false =>
              simp [POST, hv, hl, newPageStage, hn, viewportStage, hvp] at hnav
          | true =>
            cases hi : env.setInterceptionOk with
            | false =>
                simp [POST, hv, hl, newPageStage, hn, viewportStage, hvp,
                  interceptStage, hAds, hi] at hnav
            | true =>
              have hpost : (POST env (some r)).2 = (gotoStage env r
                  [Ev.launch, Ev.newPage, Ev.setViewport r.width r.height r.zoom,
                   Ev.setInterception, Ev.onRequest]).2 := by
                simp [POST, hv, hl, newPageStage, hn, viewportStage, hvp,
                  interceptStage, hAds, hi]
              cases hg : env.gotoOutcome with
              | ok =>
                  obtain ⟨s, hs⟩ := cssStage_trace env r
                    ([Ev.launch, Ev.newPage, Ev.setViewport r.width r.height r.zoom,
                      Ev.setInterception, Ev.onRequest] ++ [Ev.navigate r.url])
                  refine ⟨[Ev.launch, Ev.newPage,
                    Ev.setViewport r.width r.height r.zoom,
                    Ev.setInterception, Ev.onRequest], s, ?_, by simp, by simp⟩
                  rw [hpost]
                  simp only [gotoStage, hg]
                  simpa using hs
              | timeout =>
                  refine ⟨[Ev.launch, Ev.newPage,
                    Ev.setViewport r.width r.height r.zoom,
                    Ev.setInterception, Ev.onRequest], [], ?_, by simp, by simp⟩
                  rw [hpost]
                  simp [gotoStage, hg]
              | err =>
                  refine ⟨[Ev.launch, Ev.newPage,
                    Ev.setViewport r.width r.height r.zoom,
                    Ev.setInterception, Ev.onRequest], [], ?_, by simp, by simp⟩
                  rw [hpost]
                  simp [gotoStage, hg]
  · intro rt
    constructor
    · intro hab
      by_cases h1 : rt = "advertisement"
      · exact Or.inl h1
      · by_cases h2 : rt = "media"
        · exact Or.inr h2
        · simp [onRequestHandler, h1, h2] at hab
    · intro hor
      rcases hor with h | h <;> simp [onRequestHandler, h]
  · intro rt h1 h2
    simp [onRequestHandler, h1, h2]

/-- C3 witness: a concrete noAds request whose navigation happens;
the handler aborts a media request. -/
theorem C3_adblock_witness :
    ({ reqStd with noAds := true } : RawRequest).noAds = true ∧
    Ev.navigate "https://example.com"
      ∈ (POST envAllOk (some { reqStd with noAds := true })).2 ∧
    onRequestHandler "media" = InterceptAction.abort :=
  ⟨rfl, by decide,
    ((C3_adblock_installed_before_nav envAllOk { reqStd with noAds := true } rfl
        (by decide)).2.1 "media").mpr (Or.inr rfl)⟩

/-- C5: for a png request, the quality field (once both values are
inside the validated range) has no effect whatsoever: the handler
yields the same response and the same trace for any two quality
values, because quality is forwarded to the capture call only when
the format is jpeg. -/
theorem C5_png_quality_irrelevant (env : Env) (r : RawRequest) (q : Int)
    (hf : r.format = Format.png) (h1 : 0 ≤ r.quality) (h2 : r.quality ≤ 100)
    (h3 : 0 ≤ q) (h4 : q ≤ 100) :
    POST env (some { r with quality := q }) = POST env (some r) := by
  obtain ⟨url, fs, up, na, w, h, z, fmt, qual, d, css⟩ := r
  simp only at hf h1 h2
  subst hf
  have hval : validate env ⟨url, fs, up, na, w, h, z, Format.png, q, d, css⟩
      = validate env ⟨url, fs, up, na, w, h, z, Format.png, qual, d, css⟩ := by
    simp only [validate]
    rw [decide_eq_true h1, decide_eq_true h2, decide_eq_true h3, decide_eq_true h4]
  have hpipe : ∀ t, newPageStage env ⟨url, fs, up, na, w, h, z, Format.png, q, d, css⟩ t
      = newPageStage env ⟨url, fs, up, na, w, h, z, Format.png, qual, d, css⟩ t := by
    intro t
    simp [newPageStage, viewportStage, interceptStage, gotoStage, cssStage,
      delayStage, capAndRespond, pageStateOf, mimeOf, formatStr]
  simp only [POST, hval, hpipe]

/-- C5 witness: the theorem applied at the standard png request with
quality 30 against quality 80. -/
theorem C5_png_quality_witness :
    (reqStd : RawRequest).format = Format.png ∧
    (0 : Int) ≤ (reqStd : RawRequest).quality ∧
    POST envAllOk (some { reqStd with quality := 30 }) = POST envAllOk (some reqStd) :=
  ⟨rfl, by decide,
    C5_png_quality_irrelevant envAllOk reqStd 30 rfl (by decide) (by decide)
      (by decide) (by decide)⟩
